import Mathlib

/-!
Verification of the offline-map rendering pipeline.

This development is a shallow embedding, in Lean 4, of the JavaScript modules
of the offline-map repository: the style rule engine (src/render-rules.js),
the projection and node-map construction (src/render-main.js,
MapRenderer.buildNodesMap), the way and relation compositors
(src/render-ways.js, src/render-relations.js), the render pass
(MapRenderer.render), bounding-box input validation (input-validation.js) and
the form-submission handler, the clear-data workflow (src/clear-data.js) and
the zoom buttons (src/zoom-buttons.js).

Machine numbers are modelled by the type JSNum below: an exact rational
together with the IEEE-754 special values Infinity, -Infinity and NaN (and
the JavaScript value undefined, which behaves as NaN in arithmetic).  Finite
float arithmetic is idealised as exact rational arithmetic; the special-value
behaviour of division by zero, of 0 * Infinity, of Math.min and of the
comparison operators follows the ECMAScript semantics case by case.
-/

namespace OfflineMap

/-- Model of a JavaScript number: a finite value (idealised as an exact
rational), positive or negative Infinity, NaN, or the value undefined
(produced by out-of-range array indexing; it coerces to NaN in arithmetic). -/
inductive JSNum where
  | fin (q : ℚ)
  | inf
  | neginf
  | nan
  | undefined
deriving Repr, DecidableEq

namespace JSNum

/-- JavaScript addition.  Infinity + -Infinity is NaN; NaN and undefined
propagate. -/
def add : JSNum → JSNum → JSNum
  | .fin a, .fin b => .fin (a + b)
  | .inf, .inf => .inf
  | .inf, .fin _ => .inf
  | .fin _, .inf => .inf
  | .neginf, .neginf => .neginf
  | .neginf, .fin _ => .neginf
  | .fin _, .neginf => .neginf
  | _, _ => .nan

/-- JavaScript subtraction.  Infinity - Infinity is NaN; NaN and undefined
propagate. -/
def sub : JSNum → JSNum → JSNum
  | .fin a, .fin b => .fin (a - b)
  | .inf, .neginf => .inf
  | .inf, .fin _ => .inf
  | .fin _, .neginf => .inf
  | .neginf, .inf => .neginf
  | .neginf, .fin _ => .neginf
  | .fin _, .inf => .neginf
  | _, _ => .nan

/-- JavaScript multiplication.  0 * Infinity is NaN (IEEE-754); NaN and
undefined propagate. -/
def mul : JSNum → JSNum → JSNum
  | .fin a, .fin b => .fin (a * b)
  | .fin a, .inf => if 0 < a then .inf else if a < 0 then .neginf else .nan
  | .inf, .fin a => if 0 < a then .inf else if a < 0 then .neginf else .nan
  | .fin a, .neginf => if 0 < a then .neginf else if a < 0 then .inf else .nan
  | .neginf, .fin a => if 0 < a then .neginf else if a < 0 then .inf else .nan
  | .inf, .inf => .inf
  | .neginf, .neginf => .inf
  | .inf, .neginf => .neginf
  | .neginf, .inf => .neginf
  | _, _ => .nan

/-- JavaScript division.  Division of a nonzero finite value by zero gives a
signed Infinity; 0 / 0 gives NaN; a finite value divided by an Infinity gives
0; NaN and undefined propagate.  (The repository never produces a negative
zero, so the -0 cases are not modelled.) -/
def div : JSNum → JSNum → JSNum
  | .fin a, .fin b =>
      if b = 0 then (if 0 < a then .inf else if a < 0 then .neginf else .nan)
      else .fin (a / b)
  | .fin _, .inf => .fin 0
  | .fin _, .neginf => .fin 0
  | .inf, .fin b => if 0 ≤ b then .inf else .neginf
  | .neginf, .fin b => if 0 ≤ b then .neginf else .inf
  | _, _ => .nan

instance : Add JSNum := ⟨add⟩

instance : Sub JSNum := ⟨sub⟩

instance : Mul JSNum := ⟨mul⟩

instance : Div JSNum := ⟨div⟩

@[simp] theorem add_def (a b : JSNum) : a + b = add a b := rfl

@[simp] theorem sub_def (a b : JSNum) : a - b = sub a b := rfl

@[simp] theorem mul_def (a b : JSNum) : a * b = mul a b := rfl

@[simp] theorem div_def (a b : JSNum) : a / b = div a b := rfl

/-- Semantics of JavaScript Math.min on two arguments: NaN (or undefined,
which Math.min coerces to NaN) makes the result NaN, otherwise the smaller
value is returned. -/
def jsMin : JSNum → JSNum → JSNum
  | .nan, _ => .nan
  | .undefined, _ => .nan
  | _, .nan => .nan
  | _, .undefined => .nan
  | .fin a, .fin b => .fin (min a b)
  | .neginf, _ => .neginf
  | _, .neginf => .neginf
  | .fin a, .inf => .fin a
  | .inf, x => x

/-- Semantics of the JavaScript comparison a < b: any comparison involving
NaN (or undefined, coerced to NaN) is false. -/
def lt : JSNum → JSNum → Bool
  | .nan, _ => false
  | .undefined, _ => false
  | _, .nan => false
  | _, .undefined => false
  | .fin a, .fin b => decide (a < b)
  | .neginf, .neginf => false
  | .neginf, _ => true
  | _, .neginf => false
  | .inf, _ => false
  | .fin _, .inf => true

/-- Semantics of the JavaScript comparison a <= b: any comparison involving
NaN (or undefined) is false. -/
def le : JSNum → JSNum → Bool
  | .nan, _ => false
  | .undefined, _ => false
  | _, .nan => false
  | _, .undefined => false
  | .fin a, .fin b => decide (a ≤ b)
  | .neginf, _ => true
  | _, .neginf => false
  | .inf, .inf => true
  | .fin _, .inf => true
  | .inf, .fin _ => false

/-- Semantics of the JavaScript comparison a > b, which is b < a. -/
def gt (a b : JSNum) : Bool := lt b a

/-- Semantics of the JavaScript comparison a >= b, which is b <= a. -/
def ge (a b : JSNum) : Bool := le b a

/-- Semantics of the JavaScript strict equality a === b on numbers: NaN is
not strictly equal to anything, including itself. -/
def strictEq : JSNum → JSNum → Bool
  | .fin a, .fin b => decide (a = b)
  | .inf, .inf => true
  | .neginf, .neginf => true
  | .undefined, .undefined => true
  | _, _ => false

/-- Semantics of the JavaScript isFinite predicate. -/
def isFinite : JSNum → Bool
  | .fin _ => true
  | _ => false

theorem lt_false_of_ge {a b : JSNum} (h : ge a b = true) : lt a b = false := by
  cases a <;> cases b <;> simp_all [ge, le, lt] <;> linarith

theorem le_false_of_gt {a b : JSNum} (h : gt a b = true) : le a b = false := by
  cases a <;> cases b <;> simp_all [gt, lt, le] <;> linarith

theorem ge_false_of_lt {a b : JSNum} (h : lt a b = true) : ge a b = false := by
  cases a <;> cases b <;> simp_all [ge, le, lt] <;> linarith

theorem lt_false_of_gt {a b : JSNum} (h : gt a b = true) : lt a b = false := by
  cases a <;> cases b <;> simp_all [gt, lt] <;> linarith

end JSNum

/-- Model of JavaScript array indexing list[i] on an array of numbers: an
out-of-range index yields undefined. -/
def jsIndex (l : List ℚ) (i : ℤ) : JSNum :=
  if h : 0 ≤ i then
    match l.get? i.toNat with
    | some q => .fin q
    | none => .undefined
  else .undefined

/-- A tag parsed from an OSM XML tag element (parse-data.js: attributes k
and v, both strings). -/
structure Tag where
  key : String
  value : String
deriving Repr, DecidableEq

/-- An OSM node (parse-data.js: id is a string, lat and lon are parsed with
parseFloat, tags is the parsed tag list). -/
structure OsmNode where
  id : String
  lat : ℚ
  lon : ℚ
  tags : List Tag
deriving Repr, DecidableEq

/-- An OSM way: an id, an ordered list of node-id references (the ref
attributes of its nd children, strings) and its tags. -/
structure Way where
  id : String
  nodes : List String
  tags : List Tag
deriving Repr, DecidableEq

/-- A member of an OSM relation (parse-data.js: type, ref and role
attributes, all strings). -/
structure Member where
  type : String
  ref : String
  role : String
deriving Repr, DecidableEq

/-- An OSM relation: an id, a member list and its tags. -/
structure Relation where
  id : String
  members : List Member
  tags : List Tag
deriving Repr, DecidableEq

/-- A style descriptor (render-rules.js).  Every rule in the table defines
fillStyle, strokeStyle, shouldFill and zIndex explicitly; lineWidth,
hasCasing and casingStrokeStyle are only present on some rules and are
modelled as options (their use sites apply the source defaults 1, false and
"#333"). -/
structure Styles where
  fillStyle : String
  strokeStyle : String
  shouldFill : Bool
  zIndex : Nat
  lineWidth : Option ℚ := none
  hasCasing : Option Bool := none
  casingStrokeStyle : Option String := none
deriving Repr, DecidableEq

/-- A render rule (render-rules.js): a predicate over an element together
with a style descriptor.  Every condition in the table reads only the
element's tag list, so conditions are modelled as predicates on tag
lists and apply uniformly to ways and relations. -/
structure Rule where
  condition : List Tag → Bool
  styles : Styles

/-- Condition shape used by the key-only rules of render-rules.js:
element.tags.some(({ key }) => key === k). -/
def hasTagKey (k : String) (tags : List Tag) : Bool :=
  tags.any fun t => t.key == k

/-- Condition shape used by the key/value rules of render-rules.js:
element.tags.some(({ key, value }) => key === k && value === v). -/
def hasTagKV (k v : String) (tags : List Tag) : Bool :=
  tags.any fun t => t.key == k && t.value == v

/-- Last entry of the rule table of render-rules.js: the catch-all default
rule, whose condition is constantly true. -/
def catchAllRule : Rule :=
  { condition := fun _ => true
  , styles := { fillStyle := "", strokeStyle := "", shouldFill := false, zIndex := 0 } }

/-- The rule table of render-rules.js, in declaration order.  The last entry
is the catch-all default rule. -/
def renderRules : List Rule := [
  { condition := hasTagKey "building",
    styles := { fillStyle := "#d9d0c9", strokeStyle := "#c4b7a9", shouldFill := true, zIndex := 3 } },
  { condition := hasTagKV "highway" "footway",
    styles := { fillStyle := "", strokeStyle := "#fa8072", shouldFill := false, zIndex := 4 } },
  { condition := hasTagKV "highway" "pedestrian",
    styles := { fillStyle := "#dddde8", strokeStyle := "#aaaaad", shouldFill := true, zIndex := 3 } },
  { condition := hasTagKV "landuse" "forest",
    styles := { fillStyle := "#add19e", strokeStyle := "#95a986", shouldFill := true, zIndex := 2 } },
  { condition := hasTagKV "landuse" "grass",
    styles := { fillStyle := "#cdebb0", strokeStyle := "#abbb9d", shouldFill := true, zIndex := 3 } },
  { condition := hasTagKV "landuse" "residential",
    styles := { fillStyle := "#e0dfdf", strokeStyle := "#d0cfce", shouldFill := true, zIndex := 2 } },
  { condition := hasTagKV "landuse" "farmyard",
    styles := { fillStyle := "#f5dcba", strokeStyle := "#dbc29b", shouldFill := true, zIndex := 2 } },
  { condition := hasTagKV "landuse" "landfill",
    styles := { fillStyle := "#b6b592", strokeStyle := "#b39856", shouldFill := true, zIndex := 2 } },
  { condition := hasTagKV "landuse" "plant_nursery",
    styles := { fillStyle := "#aedfa3", strokeStyle := "#518f45", shouldFill := true, zIndex := 2 } },
  { condition := hasTagKV "landuse" "military",
    styles := { fillStyle := "#f3e3dd", strokeStyle := "#dcc6c0", shouldFill := true, zIndex := 2 } },
  { condition := hasTagKV "landuse" "recreation_ground",
    styles := { fillStyle := "#dffce2", strokeStyle := "#9eada1", shouldFill := true, zIndex := 2 } },
  { condition := hasTagKV "amenity" "parking",
    styles := { fillStyle := "#eeeeee", strokeStyle := "#d9cbc6", shouldFill := true, zIndex := 2 } },
  { condition := hasTagKV "leisure" "pitch",
    styles := { fillStyle := "#88e0be", strokeStyle := "#6bcea5", shouldFill := true, zIndex := 3 } },
  { condition := hasTagKV "leisure" "garden",
    styles := { fillStyle := "#cdebb0", strokeStyle := "#8ab773", shouldFill := true, zIndex := 3 } },
  { condition := hasTagKV "natural" "wood",
    styles := { fillStyle := "#add19e", strokeStyle := "#93b685", shouldFill := true, zIndex := 3 } },
  { condition := hasTagKV "natural" "grassland",
    styles := { fillStyle := "#cdebb0", strokeStyle := "#7e8577", shouldFill := true, zIndex := 2 } },
  { condition := hasTagKV "natural" "wetland",
    styles := { fillStyle := "#cdebb0", strokeStyle := "#76b588", shouldFill := true, zIndex := 2 } },
  { condition := hasTagKV "natural" "scrub",
    styles := { fillStyle := "#c8d7ab", strokeStyle := "#b0be93", shouldFill := true, zIndex := 2 } },
  { condition := hasTagKV "natural" "water",
    styles := { fillStyle := "#aad3df", strokeStyle := "#87a8e0", shouldFill := true, zIndex := 3 } },
  { condition := hasTagKV "waterway" "stream",
    styles := { fillStyle := "#aad3df", strokeStyle := "#87a8e0", shouldFill := true, zIndex := 3 } },
  { condition := hasTagKV "landuse" "retail",
    styles := { fillStyle := "#ffd6d1", strokeStyle := "#ebbbb5", shouldFill := true, zIndex := 1 } },
  { condition := hasTagKV "landuse" "construction",
    styles := { fillStyle := "#c7c7b4", strokeStyle := "#919a87", shouldFill := true, zIndex := 2 } },
  { condition := hasTagKV "landuse" "commercial",
    styles := { fillStyle := "#f2dad9", strokeStyle := "#ddc4c3", shouldFill := true, zIndex := 1 } },
  { condition := hasTagKV "landuse" "industrial",
    styles := { fillStyle := "#ebdbe8", strokeStyle := "#d2c2ce", shouldFill := true, zIndex := 1 } },
  { condition := hasTagKV "man_made" "wastewater_plant",
    styles := { fillStyle := "#ebdbe8", strokeStyle := "#d2c2ce", shouldFill := true, zIndex := 1 } },
  { condition := hasTagKV "landuse" "allotments",
    styles := { fillStyle := "#c9e1bf", strokeStyle := "#b6cfab", shouldFill := true, zIndex := 2 } },
  { condition := hasTagKV "landuse" "religious",
    styles := { fillStyle := "#d0d0d0", strokeStyle := "#9a9a9a", shouldFill := true, zIndex := 2 } },
  { condition := hasTagKV "leisure" "park",
    styles := { fillStyle := "#c8facc", strokeStyle := "#8fd794", shouldFill := true, zIndex := 2 } },
  { condition := hasTagKV "leisure" "golf_course",
    styles := { fillStyle := "#def6c0", strokeStyle := "#add19e", shouldFill := true, zIndex := 2 } },
  { condition := hasTagKV "landuse" "farmland",
    styles := { fillStyle := "#eef0d5", strokeStyle := "#dbddc4", shouldFill := true, zIndex := 2 } },
  { condition := hasTagKV "landuse" "quarry",
    styles := { fillStyle := "#c5c3c3", strokeStyle := "#8e8c8c", shouldFill := true, zIndex := 2 } },
  { condition := hasTagKV "landuse" "meadow",
    styles := { fillStyle := "#cdebb0", strokeStyle := "#97a886", shouldFill := true, zIndex := 2 } },
  { condition := hasTagKV "natural" "sand",
    styles := { fillStyle := "#f5e9c6", strokeStyle := "#e7cfc3", shouldFill := true, zIndex := 2 } },
  { condition := hasTagKey "amenity",
    styles := { fillStyle := "#ffffe5", strokeStyle := "#e1dac6", shouldFill := true, zIndex := 1 } },
  { condition := hasTagKV "landuse" "cemetery",
    styles := { fillStyle := "#aacbaf", strokeStyle := "#88b78e", shouldFill := true, zIndex := 2 } },
  { condition := hasTagKV "highway" "motorway",
    styles := { fillStyle := "", strokeStyle := "#e892a2", shouldFill := false, zIndex := 4,
                lineWidth := some 12, hasCasing := some true, casingStrokeStyle := some "#de3d72" } },
  { condition := hasTagKV "highway" "motorway_link",
    styles := { fillStyle := "", strokeStyle := "#e892a2", shouldFill := false, zIndex := 4,
                lineWidth := some 6, hasCasing := some true, casingStrokeStyle := some "#de3d72" } },
  { condition := hasTagKV "highway" "primary",
    styles := { fillStyle := "", strokeStyle := "#fcd6a4", shouldFill := false, zIndex := 4,
                lineWidth := some 10, hasCasing := some true, casingStrokeStyle := some "#c49540" } },
  { condition := hasTagKV "highway" "secondary",
    styles := { fillStyle := "", strokeStyle := "#f7fabf", shouldFill := false, zIndex := 4,
                lineWidth := some 8, hasCasing := some true, casingStrokeStyle := some "#bcc46f" } },
  { condition := hasTagKV "highway" "tertiary",
    styles := { fillStyle := "", strokeStyle := "#fdfdfd", shouldFill := false, zIndex := 3,
                lineWidth := some 6, hasCasing := some true, casingStrokeStyle := some "#a4a3a3" } },
  { condition := hasTagKV "highway" "service",
    styles := { fillStyle := "", strokeStyle := "#fdfdfd", shouldFill := false, zIndex := 2,
                lineWidth := some 2, hasCasing := some true, casingStrokeStyle := some "#a4a3a3" } },
  { condition := hasTagKV "highway" "unclassified",
    styles := { fillStyle := "", strokeStyle := "#fdfdfd", shouldFill := false, zIndex := 2,
                lineWidth := some 2, hasCasing := some true, casingStrokeStyle := some "#a4a3a3" } },
  { condition := hasTagKV "highway" "residential",
    styles := { fillStyle := "", strokeStyle := "#fdfdfd", shouldFill := false, zIndex := 3,
                lineWidth := some 4, hasCasing := some true, casingStrokeStyle := some "#a4a3a3" } },
  { condition := hasTagKV "railway" "rail",
    styles := { fillStyle := "#707070", strokeStyle := "#707070", shouldFill := true, zIndex := 3,
                lineWidth := some 2, hasCasing := some true, casingStrokeStyle := some "#707070" } },
  { condition := hasTagKV "highway" "trunk",
    styles := { fillStyle := "", strokeStyle := "#f9b29c", shouldFill := false, zIndex := 3,
                lineWidth := some 8, hasCasing := some true, casingStrokeStyle := some "#cc583a" } },
  catchAllRule
]

/-- Style resolution as written in render-ways.js (getRenderRule),
render-relations.js (getRenderRule and applyRelationStyles) and
render-main.js (the local getRenderRule in MapRenderer.render):
renderRules.find(rule => rule.condition(element)). -/
def getRenderRule (tags : List Tag) : Option Rule :=
  renderRules.find? fun rule => rule.condition tags

theorem renderRules_decomp : renderRules = renderRules.dropLast ++ [catchAllRule] := rfl

/-- Resolution is total: the catch-all rule ends the table, so find always
succeeds. -/
theorem getRenderRule_total (tags : List Tag) : ∃ r, getRenderRule tags = some r := by
  rw [getRenderRule, renderRules_decomp, List.find?_append]
  cases h : renderRules.dropLast.find? (fun rule => rule.condition tags) with
  | some r => exact ⟨r, by simp [h]⟩
  | none => exact ⟨catchAllRule, by simp [h, catchAllRule]⟩

/-- The resolved rule of an element.  JavaScript's find returns undefined
when nothing matches and the callers dereference .styles unconditionally;
by getRenderRule_total the none branch is unreachable, and the catch-all
default supplied here is never actually used. -/
def resolvedRule (tags : List Tag) : Rule :=
  (getRenderRule tags).getD catchAllRule

theorem getRenderRule_eq_resolvedRule (tags : List Tag) :
    getRenderRule tags = some (resolvedRule tags) := by
  obtain ⟨r, hr⟩ := getRenderRule_total tags
  rw [resolvedRule, hr]
  rfl

/-- The z-index an element is rendered at. -/
def zIndexOf (tags : List Tag) : Nat :=
  (resolvedRule tags).styles.zIndex

/-- C1: resolving the style of any entity by scanning the rule table in
declaration order and returning the first rule whose predicate holds yields
exactly one style descriptor (resolution is total and deterministic), and
any entity whose tags satisfy no specific rule's predicate resolves to the
final catch-all style: empty fill, empty stroke, shouldFill false and
z-index 0. -/
theorem style_resolution_total_and_catchall (tags : List Tag) :
    (∃! s : Styles, ∃ r, getRenderRule tags = some r ∧ r.styles = s) ∧
    ((∀ r ∈ renderRules.dropLast, r.condition tags = false) →
      getRenderRule tags = some catchAllRule ∧
      catchAllRule.styles =
        { fillStyle := "", strokeStyle := "", shouldFill := false, zIndex := 0 }) := by
  constructor
  · obtain ⟨r, hr⟩ := getRenderRule_total tags
    refine ⟨r.styles, ⟨r, hr, rfl⟩, ?_⟩
    rintro s ⟨r2, hr2, hs⟩
    rw [hr] at hr2
    cases hr2
    exact hs.symm
  · intro h
    refine ⟨?_, rfl⟩
    rw [getRenderRule, renderRules_decomp, List.find?_append]
    have hnone : renderRules.dropLast.find? (fun rule => rule.condition tags) = none := by
      rw [List.find?_eq_none]
      intro x hx
      simp [h x hx]
    rw [hnone]
    simp [catchAllRule]

theorem style_resolution_witness :
    getRenderRule [⟨"foo", "bar"⟩] = some catchAllRule ∧
    catchAllRule.styles =
      { fillStyle := "", strokeStyle := "", shouldFill := false, zIndex := 0 } :=
  (style_resolution_total_and_catchall [⟨"foo", "bar"⟩]).2 (by decide)

/-- A projected node as stored in the nodes map built by
MapRenderer.buildNodesMap: canvas coordinates plus the node's id and tags. -/
structure ProjPoint where
  x : JSNum
  y : JSNum
  id : String
  tags : List Tag
deriving Repr, DecidableEq

/-- Model of the JavaScript Map from node ids to projected points, as an
insertion-ordered association list. -/
abbrev NodesMap : Type := List (String × ProjPoint)

/-- Semantics of JavaScript Map.prototype.set: overwrite in place when the
key is present, append otherwise. -/
def jsMapSet (m : NodesMap) (k : String) (v : ProjPoint) : NodesMap :=
  if m.any fun p => p.1 == k then
    m.map fun p => if p.1 == k then (k, v) else p
  else m ++ [(k, v)]

/-- Semantics of JavaScript Map.prototype.get: some value or none
(undefined). -/
def jsMapGet (m : NodesMap) (k : String) : Option ProjPoint :=
  m.lookup k

/-- Latitudes of the input nodes, sorted ascending (render-main.js line
181: nodes.map(node => node.lat).sort((latA, latB) => latA - latB)).
Array.prototype.sort with a numeric comparator produces the unique
ascending rearrangement of a list of numbers, here realised by the stable
insertion sort so that concrete instances evaluate by rfl. -/
def sortedLatitudes (nodes : List OsmNode) : List ℚ :=
  (nodes.map OsmNode.lat).insertionSort (· ≤ ·)

/-- Longitudes of the input nodes, sorted ascending
(render-main.js line 182). -/
def sortedLongitudes (nodes : List OsmNode) : List ℚ :=
  (nodes.map OsmNode.lon).insertionSort (· ≤ ·)

/-- Trim fraction used by buildNodesMap (render-main.js line 184). -/
def trimPercentage : ℚ := 2 / 100

/-- The robust bounding box of buildNodesMap (render-main.js lines 181-192):
2%-trimmed extremes of the independently sorted latitude and longitude
lists.  Out-of-range indices (empty input) give undefined, as in
JavaScript. -/
structure TrimmedBox where
  minLat : JSNum
  maxLat : JSNum
  minLon : JSNum
  maxLon : JSNum
deriving Repr, DecidableEq

/-- Computation of the trimmed bounding box, exactly the index arithmetic of
render-main.js lines 184-192: startIndex = Math.floor(0.02 * n),
endIndex = Math.ceil(0.98 * n), bounds at sorted positions startIndex and
endIndex - 1. -/
def trimmedBox (nodes : List OsmNode) : TrimmedBox :=
  let latitudes := sortedLatitudes nodes
  let longitudes := sortedLongitudes nodes
  let startIndex : ℤ := ⌊trimPercentage * latitudes.length⌋
  let endIndex : ℤ := ⌈(1 - trimPercentage) * latitudes.length⌉
  { minLat := jsIndex latitudes startIndex
  , maxLat := jsIndex latitudes (endIndex - 1)
  , minLon := jsIndex longitudes startIndex
  , maxLon := jsIndex longitudes (endIndex - 1) }

/-- The uniform scale of render-main.js lines 194-203:
Math.min(canvasWidth / boundingBoxWidth, canvasHeight / boundingBoxHeight)
* zoomLevel, in JavaScript float semantics (a zero-width box makes the
quotient Infinity). -/
def projectionScale (canvasWidth canvasHeight zoomLevel : ℚ) (box : TrimmedBox) : JSNum :=
  JSNum.jsMin (JSNum.fin canvasWidth / (box.maxLon - box.minLon))
      (JSNum.fin canvasHeight / (box.maxLat - box.minLat)) * JSNum.fin zoomLevel

/-- Projection of one node (render-main.js lines 209-212):
x = (lon - midLon) * scale + canvasCenterX + currentOffsetX,
y = (lat - midLat) * scale * 1.6 + canvasCenterY + currentOffsetY. -/
def projectNode (scale midLon midLat : JSNum)
    (canvasCenterX canvasCenterY currentOffsetX currentOffsetY : ℚ)
    (node : OsmNode) : ProjPoint :=
  { x := (JSNum.fin node.lon - midLon) * scale
           + JSNum.fin canvasCenterX + JSNum.fin currentOffsetX
  , y := (JSNum.fin node.lat - midLat) * scale * JSNum.fin (16 / 10)
           + JSNum.fin canvasCenterY + JSNum.fin currentOffsetY
  , id := node.id
  , tags := node.tags }

/-- MapRenderer.buildNodesMap (render-main.js lines 178-215): compute the
trimmed bounding box, the scale and the box midpoint, then project every
input node into the map keyed by node id. -/
def buildNodesMap (canvasWidth canvasHeight zoomLevel currentOffsetX currentOffsetY : ℚ)
    (nodes : List OsmNode) : NodesMap :=
  let box := trimmedBox nodes
  let canvasCenterX := canvasWidth / 2
  let canvasCenterY := canvasHeight / 2
  let scale := projectionScale canvasWidth canvasHeight zoomLevel box
  let midLon := (box.minLon + box.maxLon) / JSNum.fin 2
  let midLat := (box.minLat + box.maxLat) / JSNum.fin 2
  nodes.foldl
    (fun m node =>
      jsMapSet m node.id
        (projectNode scale midLon midLat canvasCenterX canvasCenterY
          currentOffsetX currentOffsetY node))
    []

/-- C2: buildNodesMap does not guard the degenerate bounding box.  For a
single input node the trimmed box has zero width and zero height, the scale
evaluates to min(100/0, 100/0) * 1 = Infinity, and the projected coordinates
are (0 - 0) * Infinity + 50 + 0 = NaN: the produced coordinates are not
finite numbers, contradicting the claimed divide-by-zero guard. -/
theorem buildNodesMap_single_point_not_finite :
    jsMapGet (buildNodesMap 100 100 1 0 0 [⟨"n1", 0, 0, []⟩]) "n1" =
      some ⟨JSNum.nan, JSNum.nan, "n1", []⟩ ∧
    (jsMapGet (buildNodesMap 100 100 1 0 0 [⟨"n1", 0, 0, []⟩]) "n1").all
      (fun p => !(JSNum.isFinite p.x) && !(JSNum.isFinite p.y)) = true := by
  have hbox : trimmedBox [⟨"n1", 0, 0, []⟩] =
      ⟨JSNum.fin 0, JSNum.fin 0, JSNum.fin 0, JSNum.fin 0⟩ := by
    have hceil : ⌈(49 / 50 : ℚ)⌉ = 1 := by
      rw [Int.ceil_eq_iff] <;> norm_num
    rw [trimmedBox]
    norm_num [sortedLatitudes, sortedLongitudes, trimPercentage, jsIndex,
      List.insertionSort, hceil]
  have hscale :
      projectionScale 100 100 1 ⟨JSNum.fin 0, JSNum.fin 0, JSNum.fin 0, JSNum.fin 0⟩ =
        JSNum.inf := by
    norm_num [projectionScale, JSNum.div, JSNum.mul, JSNum.sub, JSNum.jsMin]
  constructor <;>
    norm_num [buildNodesMap, hbox, hscale, projectNode, jsMapSet, jsMapGet,
      JSNum.div, JSNum.mul, JSNum.add, JSNum.sub, JSNum.isFinite]

/-- Start index of the kept range after trimming, as stated by the spec:
floor(0.02 * n), written in exact integer arithmetic. -/
def trimStart (n : ℕ) : ℕ := 2 * n / 100

/-- End index (exclusive) of the kept range after trimming, as stated by
the spec: ceil(0.98 * n), written in exact integer arithmetic. -/
def trimEnd (n : ℕ) : ℕ := (98 * n + 99) / 100

/-- The property that lo and hi are finite values attained at the first and
last kept positions of the sorted coordinate list l and that they bound
every kept entry: they are the 2%-trimmed minimum and maximum of l. -/
def IsTrimmedMinMax (l : List ℚ) (n : ℕ) (lo hi : JSNum) : Prop :=
  ∃ qlo qhi, lo = .fin qlo ∧ hi = .fin qhi ∧
    l.get? (trimStart n) = some qlo ∧ l.get? (trimEnd n - 1) = some qhi ∧
    ∀ i : ℕ, trimStart n ≤ i → i < trimEnd n →
      ∃ q, l.get? i = some q ∧ qlo ≤ q ∧ q ≤ qhi

theorem trimStart_cast (n : ℕ) :
    ⌊trimPercentage * (n : ℚ)⌋ = (trimStart n : ℤ) := by
  have h : trimPercentage * (n : ℚ) = ((2 * n : ℤ) : ℚ) / ((100 : ℕ) : ℚ) := by
    rw [trimPercentage]
    push_cast
    ring
  rw [h, Rat.floor_intCast_div_natCast, trimStart]
  omega

theorem trimEnd_cast (n : ℕ) :
    ⌈(1 - trimPercentage) * (n : ℚ)⌉ = (trimEnd n : ℤ) := by
  have h : (1 - trimPercentage) * (n : ℚ) = ((98 * n : ℤ) : ℚ) / ((100 : ℕ) : ℚ) := by
    rw [trimPercentage]
    push_cast
    ring
  have hceil : ⌈((98 * n : ℤ) : ℚ) / ((100 : ℕ) : ℚ)⌉ =
      -⌊((-(98 * n) : ℤ) : ℚ) / ((100 : ℕ) : ℚ)⌋ := by
    rw [show ((-(98 * n) : ℤ) : ℚ) / ((100 : ℕ) : ℚ) =
        -(((98 * n : ℤ) : ℚ) / ((100 : ℕ) : ℚ)) by push_cast; ring]
    rw [Int.floor_neg, neg_neg]
  rw [h, hceil, Rat.floor_intCast_div_natCast, trimEnd]
  omega

theorem trimEnd_le_length (n : ℕ) : trimEnd n ≤ n := by
  rw [trimEnd]
  omega

theorem trimStart_lt_trimEnd {n : ℕ} (h : 0 < n) : trimStart n < trimEnd n := by
  rw [trimStart, trimEnd]
  omega

theorem jsIndex_of_lt {l : List ℚ} {k : ℕ} (h : k < l.length) :
    ∃ q, jsIndex l (k : ℤ) = .fin q ∧ l.get? k = some q := by
  refine ⟨l.get ⟨k, h⟩, ?_, ?_⟩
  · rw [jsIndex, dif_pos (by omega : (0 : ℤ) ≤ (k : ℤ))]
    rw [Int.toNat_ofNat, List.get?_eq_get h]
  · exact List.get?_eq_get h

theorem sorted_get_mono {l : List ℚ} (hs : l.Sorted (· ≤ ·)) {i j : ℕ}
    (hij : i ≤ j) (hj : j < l.length) :
    l.get ⟨i, lt_of_le_of_lt hij hj⟩ ≤ l.get ⟨j, hj⟩ := by
  rcases eq_or_lt_of_le hij with rfl | hlt
  · exact le_refl _
  · exact (List.pairwise_iff_get.mp hs) ⟨i, lt_of_le_of_lt hij hj⟩ ⟨j, hj⟩ hlt

theorem isTrimmedMinMax_of_sorted {l : List ℚ} {n : ℕ} (hs : l.Sorted (· ≤ ·))
    (hlen : l.length = n) (hn : 0 < n) :
    IsTrimmedMinMax l n (jsIndex l (trimStart n : ℤ)) (jsIndex l ((trimEnd n : ℤ) - 1)) := by
  have hse := trimStart_lt_trimEnd hn
  have hen := trimEnd_le_length n
  have hstart : trimStart n < l.length := by omega
  have hlast : trimEnd n - 1 < l.length := by omega
  obtain ⟨qlo, hlo, hlo'⟩ := jsIndex_of_lt hstart
  obtain ⟨qhi, hhi, hhi'⟩ := jsIndex_of_lt hlast
  refine ⟨qlo, qhi, ?_, ?_, hlo', hhi', ?_⟩
  · rw [← hlo]
  · rw [← hhi]
    congr 1
    omega
  · intro i hi1 hi2
    have hil : i < l.length := by omega
    refine ⟨l.get ⟨i, hil⟩, List.get?_eq_get hil, ?_, ?_⟩
    · have := sorted_get_mono hs hi1 hil
      rw [List.get?_eq_get hstart] at hlo'
      cases hlo'
      exact this
    · have := sorted_get_mono hs (by omega : i ≤ trimEnd n - 1) hlast
      rw [List.get?_eq_get hlast] at hhi'
      cases hhi'
      exact this

/-- C9: buildNodesMap computes its robust bounding box by sorting the
latitudes and longitudes independently in ascending order and trimming the
extreme 2% of entries from each end: the kept range is floor(0.02 n)
through ceil(0.98 n) - 1, and the box bounds are the trimmed minima and
maxima of each sorted coordinate list. -/
theorem trimming_robust_bounding_box (nodes : List OsmNode) :
    ((sortedLatitudes nodes).Sorted (· ≤ ·) ∧
      (sortedLatitudes nodes).Perm (nodes.map OsmNode.lat)) ∧
    ((sortedLongitudes nodes).Sorted (· ≤ ·) ∧
      (sortedLongitudes nodes).Perm (nodes.map OsmNode.lon)) ∧
    trimmedBox nodes =
      { minLat := jsIndex (sortedLatitudes nodes) (trimStart nodes.length : ℤ)
      , maxLat := jsIndex (sortedLatitudes nodes) ((trimEnd nodes.length : ℤ) - 1)
      , minLon := jsIndex (sortedLongitudes nodes) (trimStart nodes.length : ℤ)
      , maxLon := jsIndex (sortedLongitudes nodes) ((trimEnd nodes.length : ℤ) - 1) } ∧
    (nodes ≠ [] →
      IsTrimmedMinMax (sortedLatitudes nodes) nodes.length
        (trimmedBox nodes).minLat (trimmedBox nodes).maxLat ∧
      IsTrimmedMinMax (sortedLongitudes nodes) nodes.length
        (trimmedBox nodes).minLon (trimmedBox nodes).maxLon) := by
  have hlatSorted : (sortedLatitudes nodes).Sorted (· ≤ ·) :=
    List.sorted_insertionSort _ _
  have hlonSorted : (sortedLongitudes nodes).Sorted (· ≤ ·) :=
    List.sorted_insertionSort _ _
  have hlatPerm : (sortedLatitudes nodes).Perm (nodes.map OsmNode.lat) :=
    List.perm_insertionSort _ _
  have hlonPerm : (sortedLongitudes nodes).Perm (nodes.map OsmNode.lon) :=
    List.perm_insertionSort _ _
  have hlatLen : (sortedLatitudes nodes).length = nodes.length := by
    rw [hlatPerm.length_eq, List.length_map]
  have hlonLen : (sortedLongitudes nodes).length = nodes.length := by
    rw [hlonPerm.length_eq, List.length_map]
  have hbox : trimmedBox nodes =
      { minLat := jsIndex (sortedLatitudes nodes) (trimStart nodes.length : ℤ)
      , maxLat := jsIndex (sortedLatitudes nodes) ((trimEnd nodes.length : ℤ) - 1)
      , minLon := jsIndex (sortedLongitudes nodes) (trimStart nodes.length : ℤ)
      , maxLon := jsIndex (sortedLongitudes nodes) ((trimEnd nodes.length : ℤ) - 1) } := by
    rw [trimmedBox]
    rw [hlatLen, trimStart_cast, trimEnd_cast]
  refine ⟨⟨hlatSorted, hlatPerm⟩, ⟨hlonSorted, hlonPerm⟩, hbox, ?_⟩
  intro hne
  have hn : 0 < nodes.length := List.length_pos.mpr hne
  rw [hbox]
  exact ⟨isTrimmedMinMax_of_sorted hlatSorted hlatLen hn,
    isTrimmedMinMax_of_sorted hlonSorted hlonLen hn⟩

/-- Concrete three-node data set used to instantiate hypotheses of the
projection theorems. -/
def demoNodes : List OsmNode :=
  [⟨"a", 1, 4, []⟩, ⟨"b", 2, 5, []⟩, ⟨"c", 3, 6, []⟩]

theorem trimming_witness :
    IsTrimmedMinMax (sortedLatitudes demoNodes) demoNodes.length
      (trimmedBox demoNodes).minLat (trimmedBox demoNodes).maxLat ∧
    IsTrimmedMinMax (sortedLongitudes demoNodes) demoNodes.length
      (trimmedBox demoNodes).minLon (trimmedBox demoNodes).maxLon :=
  (trimming_robust_bounding_box demoNodes).2.2.2 (List.cons_ne_nil _ _)

theorem lookup_map_replace {k : String} {v : ProjPoint} {m : NodesMap}
    (h : m.any (fun p => p.1 == k) = true) :
    (m.map fun p => if p.1 == k then (k, v) else p).lookup k = some v := by
  induction m with
  | nil => simp at h
  | cons p rest ih =>
    rcases p with ⟨pk, pv⟩
    by_cases hp : pk = k
    · subst hp
      simp [List.lookup_cons]
    · have hb : (pk == k) = false := beq_eq_false_iff_ne.mpr hp
      have hb2 : (k == pk) = false := beq_eq_false_iff_ne.mpr (Ne.symm hp)
      rw [List.map_cons]
      rw [show (if ((pk, pv).1 == k) = true then (k, v) else (pk, pv)) = (pk, pv) by
        rw [if_neg (by simp [hb])]]
      rw [List.lookup_cons]
      simp only [hb2]
      apply ih
      simpa [hb] using h

theorem lookup_map_replace_ne {k k2 : String} {v : ProjPoint} (m : NodesMap)
    (h : (k2 == k) = false) :
    (m.map fun p => if p.1 == k then (k, v) else p).lookup k2 = m.lookup k2 := by
  induction m with
  | nil => rfl
  | cons p rest ih =>
    rcases p with ⟨pk, pv⟩
    rw [List.map_cons]
    by_cases hp : pk = k
    · subst hp
      rw [show (if ((pk, pv).1 == pk) = true then (pk, v) else (pk, pv)) = (pk, v) by
        rw [if_pos (by simp)]]
      rw [List.lookup_cons, List.lookup_cons]
      simp only [h]
      exact ih
    · rw [show (if ((pk, pv).1 == k) = true then (k, v) else (pk, pv)) = (pk, pv) by
        rw [if_neg (by simp [hp])]]
      rw [List.lookup_cons, List.lookup_cons]
      cases hk2 : (k2 == pk) with
      | true => rfl
      | false => exact ih

theorem jsMapGet_jsMapSet_self (m : NodesMap) (k : String) (v : ProjPoint) :
    jsMapGet (jsMapSet m k v) k = some v := by
  rw [jsMapSet, jsMapGet]
  by_cases h : m.any (fun p => p.1 == k)
  · rw [if_pos h]
    exact lookup_map_replace h
  · rw [if_neg h]
    rw [List.lookup_append]
    have hnone : m.lookup k = none := by
      rw [List.lookup_eq_none_iff]
      intro p hp
      have := (List.any_eq_false.mp (Bool.eq_false_iff.mpr h)) p hp
      simp only [bne_iff_ne, ne_eq]
      intro hk
      exact this (by simp [hk])
    rw [hnone, List.lookup_cons_self]
    rfl

theorem jsMapGet_jsMapSet_ne (m : NodesMap) (k k2 : String) (v : ProjPoint)
    (h : k ≠ k2) :
    jsMapGet (jsMapSet m k v) k2 = jsMapGet m k2 := by
  have heq : (k2 == k) = false := beq_eq_false_iff_ne.mpr (Ne.symm h)
  rw [jsMapSet, jsMapGet, jsMapGet]
  by_cases hm : m.any (fun p => p.1 == k)
  · rw [if_pos hm]
    exact lookup_map_replace_ne m heq
  · rw [if_neg hm]
    rw [List.lookup_append]
    rw [show ([(k, v)] : NodesMap).lookup k2 = none by
      rw [List.lookup_cons]
      simp only [heq]
      rfl]
    exact Option.or_none

theorem jsMapGet_foldl_not_mem (f : OsmNode → ProjPoint) (nodes : List OsmNode)
    (m : NodesMap) (k : String) (h : k ∉ nodes.map OsmNode.id) :
    jsMapGet (nodes.foldl (fun acc n => jsMapSet acc n.id (f n)) m) k = jsMapGet m k := by
  induction nodes generalizing m with
  | nil => rfl
  | cons n rest ih =>
    simp only [List.map, List.mem_cons, not_or] at h
    rw [List.foldl_cons, ih _ (by exact fun hk => h.2 hk)]
    exact jsMapGet_jsMapSet_ne m n.id k (f n) (fun hk => h.1 hk.symm)

theorem jsMapGet_foldl_mem (f : OsmNode → ProjPoint) (nodes : List OsmNode)
    (m : NodesMap) (nd : OsmNode)
    (hnodup : (nodes.map OsmNode.id).Nodup) (hmem : nd ∈ nodes) :
    jsMapGet (nodes.foldl (fun acc n => jsMapSet acc n.id (f n)) m) nd.id = some (f nd) := by
  induction nodes generalizing m with
  | nil => cases hmem
  | cons n rest ih =>
    rw [List.map_cons, List.nodup_cons] at hnodup
    rcases List.mem_cons.mp hmem with rfl | hmem'
    · rw [List.foldl_cons,
        jsMapGet_foldl_not_mem f rest (jsMapSet m nd.id (f nd)) nd.id hnodup.1]
      exact jsMapGet_jsMapSet_self m nd.id (f nd)
    · rw [List.foldl_cons]
      exact ih _ hnodup.2 hmem'

/-- Scale used by buildNodesMap, as a function of the node set: the uniform
scale over the trimmed bounding box. -/
def scaleOf (canvasWidth canvasHeight zoomLevel : ℚ) (nodes : List OsmNode) : JSNum :=
  projectionScale canvasWidth canvasHeight zoomLevel (trimmedBox nodes)

/-- Longitude midpoint of the trimmed bounding box. -/
def midLonOf (nodes : List OsmNode) : JSNum :=
  ((trimmedBox nodes).minLon + (trimmedBox nodes).maxLon) / JSNum.fin 2

/-- Latitude midpoint of the trimmed bounding box. -/
def midLatOf (nodes : List OsmNode) : JSNum :=
  ((trimmedBox nodes).minLat + (trimmedBox nodes).maxLat) / JSNum.fin 2

/-- C4: every node of the input set, including nodes outside the trimmed
bounding box, receives the projection
x = (lon - midLon) * scale + canvasWidth/2 + panX and
y = (lat - midLat) * scale * 1.6 + canvasHeight/2 + panY, where the scale
and the midpoint come from the trimmed box: trimming affects only the
scale and center, never which nodes are projected.  (Node ids are assumed
distinct, as OSM ids are; a duplicated id would overwrite its earlier
entry in the map.) -/
theorem buildNodesMap_projects_every_node
    (canvasWidth canvasHeight zoomLevel panX panY : ℚ)
    (nodes : List OsmNode) (nd : OsmNode)
    (hnodup : (nodes.map OsmNode.id).Nodup) (hmem : nd ∈ nodes) :
    jsMapGet (buildNodesMap canvasWidth canvasHeight zoomLevel panX panY nodes) nd.id =
      some
        { x := (JSNum.fin nd.lon - midLonOf nodes)
                 * scaleOf canvasWidth canvasHeight zoomLevel nodes
                 + JSNum.fin (canvasWidth / 2) + JSNum.fin panX
        , y := (JSNum.fin nd.lat - midLatOf nodes)
                 * scaleOf canvasWidth canvasHeight zoomLevel nodes * JSNum.fin (16 / 10)
                 + JSNum.fin (canvasHeight / 2) + JSNum.fin panY
        , id := nd.id
        , tags := nd.tags } := by
  rw [buildNodesMap]
  exact jsMapGet_foldl_mem _ nodes [] nd hnodup hmem

theorem buildNodesMap_projects_witness :
    jsMapGet (buildNodesMap 300 200 1 0 0 demoNodes) "a" =
      some
        { x := (JSNum.fin 4 - midLonOf demoNodes) * scaleOf 300 200 1 demoNodes
                 + JSNum.fin (300 / 2) + JSNum.fin 0
        , y := (JSNum.fin 1 - midLatOf demoNodes) * scaleOf 300 200 1 demoNodes
                 * JSNum.fin (16 / 10) + JSNum.fin (200 / 2) + JSNum.fin 0
        , id := "a"
        , tags := [] } :=
  buildNodesMap_projects_every_node 300 200 1 0 0 demoNodes ⟨"a", 1, 4, []⟩
    (by simp [demoNodes]) (by simp [demoNodes])

/-- An observable drawing command issued against the 2D canvas context.
The state-setting assignments (lineWidth, strokeStyle, fillStyle) are
recorded as commands in emission order. -/
inductive CanvasOp where
  | beginPath
  | moveTo (x y : JSNum)
  | lineTo (x y : JSNum)
  | closePath
  | setLineWidth (w : ℚ)
  | setStrokeStyle (s : String)
  | setFillStyle (s : String)
  | fill
  | stroke
deriving Repr, DecidableEq

/-- The isPathClosed helper of render-ways.js and render-relations.js: the
first and the last projected point of the path have strictly equal (===)
x and y coordinates.  It is only ever called on at least two resolved
points; the empty case is given the value false.  Closure is evaluated on
projected screen coordinates: the geographic coordinates are not consulted. -/
def isPathClosed (nodes : List ProjPoint) : Bool :=
  match nodes.head?, nodes.getLast? with
  | some s, some e => JSNum.strictEq s.x e.x && JSNum.strictEq s.y e.y
  | _, _ => false

/-- Resolution of a way's node references against the nodes map
(render-ways.js line 15, render-relations.js line 33):
way.nodes.map(ref => nodesMap.get(ref)).filter(Boolean) — references absent
from the map are silently dropped. -/
def resolveWayNodes (way : Way) (nodesMap : NodesMap) : List ProjPoint :=
  (way.nodes.map fun ref => jsMapGet nodesMap ref).filterMap id

/-- The moveTo/lineTo sequence of a resolved path: moveTo on the first
point, lineTo on the rest, with the y axis flipped against the canvas
height (render-ways.js lines 28-31 and 38-41, render-relations.js lines
37-40). -/
def wayPathOps (canvasHeight : ℚ) (nodes : List ProjPoint) : List CanvasOp :=
  match nodes with
  | [] => []
  | n0 :: rest =>
      CanvasOp.moveTo n0.x (JSNum.fin canvasHeight - n0.y) ::
        rest.map fun n => CanvasOp.lineTo n.x (JSNum.fin canvasHeight - n.y)

/-- Drawing commands for one way with its resolved rule, after the
fewer-than-two-points guard (render-ways.js lines 18-51): optional casing
pass, main path, conditional close/fill, final stroke. -/
def wayStrokeOps (canvasHeight : ℚ) (rule : Rule) (nodes : List ProjPoint) : List CanvasOp :=
  let strokeStyle := rule.styles.strokeStyle
  let fillStyle := rule.styles.fillStyle
  let lineWidth := rule.styles.lineWidth.getD 1
  let shouldFill := rule.styles.shouldFill
  let hasCasing := rule.styles.hasCasing.getD false
  (if hasCasing then
    CanvasOp.beginPath :: wayPathOps canvasHeight nodes ++
      [CanvasOp.setLineWidth (lineWidth * (12 / 10)),
       CanvasOp.setStrokeStyle (rule.styles.casingStrokeStyle.getD "#333"),
       CanvasOp.stroke]
  else []) ++
  (CanvasOp.beginPath :: wayPathOps canvasHeight nodes) ++
  (if shouldFill && isPathClosed nodes then
    [CanvasOp.closePath, CanvasOp.setFillStyle fillStyle, CanvasOp.fill]
  else []) ++
  [CanvasOp.setLineWidth lineWidth, CanvasOp.setStrokeStyle strokeStyle, CanvasOp.stroke]

/-- Drawing commands for one entry of the sorted way list of drawWays
(render-ways.js lines 14-52).  The fewer-than-two-points guard precedes
every use of the rule.  The rule component is an Option exactly as
JavaScript's find may in general return undefined; by getRenderRule_total
the none branch (where JavaScript would throw on rule.styles) is
unreachable, and it is given the value []. -/
def drawWayPair (canvasHeight : ℚ) (nodesMap : NodesMap) (p : Way × Option Rule) : List CanvasOp :=
  let nodes := resolveWayNodes p.1 nodesMap
  if nodes.length < 2 then []
  else
    match p.2 with
    | some rule => wayStrokeOps canvasHeight rule nodes
    | none => []

/-- Sort key of the drawWays/drawRelations pre-sort:
rule?.styles.zIndex ?? 0. -/
def zIndexRank : Option Rule → Nat
  | some rule => rule.styles.zIndex
  | none => 0

/-- The drawWays compositor (render-ways.js lines 9-53): pair each way with
its resolved rule, stable-sort by z-index ascending, then emit the drawing
commands of each way in order.  Array.prototype.sort is stable; it is
modelled by the stable insertion sort. -/
def drawWays (canvasHeight : ℚ) (ways : List Way) (nodesMap : NodesMap) : List CanvasOp :=
  (((ways.map fun w => (w, getRenderRule w.tags)).insertionSort
      fun a b => zIndexRank a.2 ≤ zIndexRank b.2).map
    (drawWayPair canvasHeight nodesMap)).flatten

/-- The per-relation style application of render-relations.js lines 3-11:
re-resolve the rule (unconditionally dereferenced in the source, total by
getRenderRule_total) and set line width, fill style and stroke style;
returns the style commands together with the shouldFill flag. -/
def applyRelationStyles (tags : List Tag) : List CanvasOp × Bool :=
  let rule := resolvedRule tags
  ([CanvasOp.setLineWidth (rule.styles.lineWidth.getD 1),
    CanvasOp.setFillStyle rule.styles.fillStyle,
    CanvasOp.setStrokeStyle rule.styles.strokeStyle],
   rule.styles.shouldFill)

/-- Drawing commands for one relation member (render-relations.js lines
27-48): non-way members are skipped, the referenced way is looked up among
the loaded ways, its node references are resolved, and paths with fewer
than two resolved points are skipped without error. -/
def relationMemberOps (canvasHeight : ℚ) (ways : List Way) (nodesMap : NodesMap)
    (shouldFill : Bool) (member : Member) : List CanvasOp :=
  if member.type ≠ "way" then []
  else
    match ways.find? fun w => w.id == member.ref with
    | none => []
    | some way =>
        let wayNodes := resolveWayNodes way nodesMap
        if wayNodes.length < 2 then []
        else
          (CanvasOp.beginPath :: wayPathOps canvasHeight wayNodes) ++
          (if shouldFill && isPathClosed wayNodes then
            [CanvasOp.closePath, CanvasOp.fill]
          else []) ++
          [CanvasOp.stroke]

/-- The drawRelations compositor (render-relations.js lines 19-50): pair
each relation with its resolved rule, stable-sort by z-index ascending,
then for each relation apply its own style once and draw each of its way
members with that style. -/
def drawRelations (canvasHeight : ℚ) (relations : List Relation) (ways : List Way)
    (nodesMap : NodesMap) : List CanvasOp :=
  (((relations.map fun r => (r, getRenderRule r.tags)).insertionSort
      fun a b => zIndexRank a.2 ≤ zIndexRank b.2).map fun p =>
    (applyRelationStyles p.1.tags).1 ++
      (p.1.members.map
        (relationMemberOps canvasHeight ways nodesMap (applyRelationStyles p.1.tags).2)).flatten).flatten

theorem fill_not_mem_wayPathOps (canvasHeight : ℚ) (nodes : List ProjPoint) :
    CanvasOp.fill ∉ wayPathOps canvasHeight nodes := by
  cases nodes <;> simp [wayPathOps]

theorem fill_mem_wayStrokeOps_iff (canvasHeight : ℚ) (rule : Rule) (nodes : List ProjPoint) :
    CanvasOp.fill ∈ wayStrokeOps canvasHeight rule nodes ↔
      (rule.styles.shouldFill && isPathClosed nodes) = true := by
  rw [wayStrokeOps]
  by_cases hc : (rule.styles.shouldFill && isPathClosed nodes) = true
  · by_cases hcase : rule.styles.hasCasing.getD false <;>
      simp [hc, hcase]
  · by_cases hcase : rule.styles.hasCasing.getD false <;>
      simp [hc, hcase, fill_not_mem_wayPathOps]

/-- C5: drawWays fills a way's path exactly when the resolved style says
shouldFill and the path is closed on projected screen coordinates (strict
equality of the first and last resolved projected points; the geographic
coordinates are never consulted, since resolution happens against the
projected nodes map), and when it fills, the fill command precedes the
final stroke. -/
theorem way_fill_iff_closed_projected (canvasHeight : ℚ) (nodesMap : NodesMap)
    (way : Way) (rule : Rule)
    (hrule : getRenderRule way.tags = some rule)
    (h2 : 2 ≤ (resolveWayNodes way nodesMap).length) :
    (CanvasOp.fill ∈ drawWayPair canvasHeight nodesMap (way, getRenderRule way.tags) ↔
      rule.styles.shouldFill = true ∧
        isPathClosed (resolveWayNodes way nodesMap) = true) ∧
    (rule.styles.shouldFill = true →
      isPathClosed (resolveWayNodes way nodesMap) = true →
      ∃ pre, drawWayPair canvasHeight nodesMap (way, getRenderRule way.tags) =
        pre ++ [CanvasOp.closePath, CanvasOp.setFillStyle rule.styles.fillStyle,
                CanvasOp.fill,
                CanvasOp.setLineWidth (rule.styles.lineWidth.getD 1),
                CanvasOp.setStrokeStyle rule.styles.strokeStyle,
                CanvasOp.stroke]) ∧
    drawWays canvasHeight [way] nodesMap =
      drawWayPair canvasHeight nodesMap (way, getRenderRule way.tags) := by
  have hun : drawWayPair canvasHeight nodesMap (way, getRenderRule way.tags) =
      wayStrokeOps canvasHeight rule (resolveWayNodes way nodesMap) := by
    rw [hrule]
    have hrfl : drawWayPair canvasHeight nodesMap (way, some rule) =
        if (resolveWayNodes way nodesMap).length < 2 then []
        else wayStrokeOps canvasHeight rule (resolveWayNodes way nodesMap) := rfl
    rw [hrfl, if_neg (by omega)]
  have hsingle : drawWays canvasHeight [way] nodesMap =
      drawWayPair canvasHeight nodesMap (way, getRenderRule way.tags) := by
    simp [drawWays, List.insertionSort]
  rw [hun] at hsingle ⊢
  refine ⟨?_, ?_, hsingle⟩
  · rw [fill_mem_wayStrokeOps_iff]
    simp [Bool.and_eq_true]
  · intro hsf hclosed
    refine ⟨(if rule.styles.hasCasing.getD false then
        CanvasOp.beginPath :: wayPathOps canvasHeight (resolveWayNodes way nodesMap) ++
          [CanvasOp.setLineWidth (rule.styles.lineWidth.getD 1 * (12 / 10)),
           CanvasOp.setStrokeStyle (rule.styles.casingStrokeStyle.getD "#333"),
           CanvasOp.stroke]
      else []) ++
        (CanvasOp.beginPath :: wayPathOps canvasHeight (resolveWayNodes way nodesMap)), ?_⟩
    rw [wayStrokeOps]
    simp [hsf, hclosed]

/-- Concrete two-point projected map used to instantiate the drawing
theorems. -/
def demoMap : NodesMap :=
  [("a", ⟨JSNum.fin 0, JSNum.fin 0, "a", []⟩),
   ("b", ⟨JSNum.fin 1, JSNum.fin 1, "b", []⟩)]

/-- Concrete untagged way over the two demo points. -/
def demoWay : Way := ⟨"w1", ["a", "b"], []⟩

theorem way_fill_witness :
    (CanvasOp.fill ∈ drawWayPair 100 demoMap (demoWay, getRenderRule demoWay.tags) ↔
      catchAllRule.styles.shouldFill = true ∧
        isPathClosed (resolveWayNodes demoWay demoMap) = true) ∧
    (catchAllRule.styles.shouldFill = true →
      isPathClosed (resolveWayNodes demoWay demoMap) = true →
      ∃ pre, drawWayPair 100 demoMap (demoWay, getRenderRule demoWay.tags) =
        pre ++ [CanvasOp.closePath, CanvasOp.setFillStyle catchAllRule.styles.fillStyle,
                CanvasOp.fill,
                CanvasOp.setLineWidth (catchAllRule.styles.lineWidth.getD 1),
                CanvasOp.setStrokeStyle catchAllRule.styles.strokeStyle,
                CanvasOp.stroke]) ∧
    drawWays 100 [demoWay] demoMap =
      drawWayPair 100 demoMap (demoWay, getRenderRule demoWay.tags) :=
  way_fill_iff_closed_projected 100 demoMap demoWay catchAllRule rfl (by decide)

/-- C6: a way whose node-reference list resolves, against the projected
node map, to fewer than two points after silently dropping unresolved
references is skipped entirely: drawWays emits no command for it, and the
per-member drawing of drawRelations emits no command for a member
referencing it.  Both functions are total, so no error is raised. -/
theorem short_way_skipped (canvasHeight : ℚ) (nodesMap : NodesMap) (way : Way)
    (rule? : Option Rule) (ways : List Way) (member : Member) (sf : Bool)
    (h : (resolveWayNodes way nodesMap).length < 2)
    (hfind : (ways.find? fun w => w.id == member.ref) = some way) :
    drawWayPair canvasHeight nodesMap (way, rule?) = [] ∧
    relationMemberOps canvasHeight ways nodesMap sf member = [] := by
  constructor
  · rw [drawWayPair]
    exact if_pos h
  · rw [relationMemberOps]
    by_cases ht : member.type ≠ "way"
    · rw [if_pos ht]
    · rw [if_neg ht, hfind]
      exact if_pos h

/-- Concrete way with a single resolvable reference, used to instantiate
the skip theorem. -/
def demoShortWay : Way := ⟨"w0", ["a", "missing"], []⟩

theorem short_way_skipped_witness :
    drawWayPair 100 demoMap (demoShortWay, none) = [] ∧
    relationMemberOps 100 [demoShortWay] demoMap false ⟨"way", "w0", ""⟩ = [] :=
  short_way_skipped 100 demoMap demoShortWay none [demoShortWay] ⟨"way", "w0", ""⟩ false
    (by decide) (by decide)

/-- The per-level relation filter of MapRenderer.render (render-main.js
line 255): relations.filter(relation =>
getRenderRule(relation)?.styles.zIndex === zIndex); the optional chaining
makes an undefined rule compare unequal. -/
def relationsAtZIndex (relations : List Relation) (z : Nat) : List Relation :=
  relations.filter fun r =>
    match getRenderRule r.tags with
    | some rule => rule.styles.zIndex == z
    | none => false

/-- The per-level way filter of MapRenderer.render (render-main.js line
259). -/
def waysAtZIndex (ways : List Way) (z : Nat) : List Way :=
  ways.filter fun w =>
    match getRenderRule w.tags with
    | some rule => rule.styles.zIndex == z
    | none => false

/-- One drawing call issued by the compositing loop of MapRenderer.render:
a drawRelations call or a drawWays call at a given z-index level, with the
filtered entity list it receives. -/
inductive DrawCall where
  | rels (z : Nat) (items : List Relation)
  | ways (z : Nat) (items : List Way)
deriving Repr, DecidableEq

/-- The compositing loop of MapRenderer.render (render-main.js lines
253-262): for zIndex from 1 to 4, if relations are visible draw the
relations at that level, then if ways are visible draw the ways at that
level. -/
def renderPass (showRelations showWays : Bool) (relations : List Relation)
    (ways : List Way) : List DrawCall :=
  (List.range' 1 4).foldl
    (fun acc z =>
      let acc2 := if showRelations then
          acc ++ [DrawCall.rels z (relationsAtZIndex relations z)]
        else acc
      if showWays then acc2 ++ [DrawCall.ways z (waysAtZIndex ways z)] else acc2)
    []

theorem mem_relationsAtZIndex (relations : List Relation) (z : Nat) (r : Relation) :
    r ∈ relationsAtZIndex relations z ↔ r ∈ relations ∧ zIndexOf r.tags = z := by
  rw [relationsAtZIndex, List.mem_filter]
  rw [getRenderRule_eq_resolvedRule r.tags]
  simp [zIndexOf]

theorem mem_waysAtZIndex (ways : List Way) (z : Nat) (w : Way) :
    w ∈ waysAtZIndex ways z ↔ w ∈ ways ∧ zIndexOf w.tags = z := by
  rw [waysAtZIndex, List.mem_filter]
  rw [getRenderRule_eq_resolvedRule w.tags]
  simp [zIndexOf]

/-- C3: the render pass iterates the z-index levels 1, 2, 3, 4 in
increasing order; at each level it draws exactly the relations whose
resolved z-index equals the level (when relations are visible) and then
exactly the ways whose resolved z-index equals the level (when ways are
visible), relations before ways at each shared level; and an entity whose
resolved z-index is 0 (the catch-all default) is drawn at no level of this
pass. -/
theorem render_zindex_pass (relations : List Relation) (ways : List Way) :
    (renderPass true true relations ways =
      [DrawCall.rels 1 (relationsAtZIndex relations 1),
       DrawCall.ways 1 (waysAtZIndex ways 1),
       DrawCall.rels 2 (relationsAtZIndex relations 2),
       DrawCall.ways 2 (waysAtZIndex ways 2),
       DrawCall.rels 3 (relationsAtZIndex relations 3),
       DrawCall.ways 3 (waysAtZIndex ways 3),
       DrawCall.rels 4 (relationsAtZIndex relations 4),
       DrawCall.ways 4 (waysAtZIndex ways 4)]) ∧
    (renderPass true false relations ways =
      [DrawCall.rels 1 (relationsAtZIndex relations 1),
       DrawCall.rels 2 (relationsAtZIndex relations 2),
       DrawCall.rels 3 (relationsAtZIndex relations 3),
       DrawCall.rels 4 (relationsAtZIndex relations 4)]) ∧
    (renderPass false true relations ways =
      [DrawCall.ways 1 (waysAtZIndex ways 1),
       DrawCall.ways 2 (waysAtZIndex ways 2),
       DrawCall.ways 3 (waysAtZIndex ways 3),
       DrawCall.ways 4 (waysAtZIndex ways 4)]) ∧
    (renderPass false false relations ways = []) ∧
    (∀ z r, r ∈ relationsAtZIndex relations z ↔ r ∈ relations ∧ zIndexOf r.tags = z) ∧
    (∀ z w, w ∈ waysAtZIndex ways z ↔ w ∈ ways ∧ zIndexOf w.tags = z) ∧
    (∀ z r, zIndexOf r.tags = 0 → 1 ≤ z → r ∉ relationsAtZIndex relations z) ∧
    (∀ z w, zIndexOf w.tags = 0 → 1 ≤ z → w ∉ waysAtZIndex ways z) := by
  refine ⟨rfl, rfl, rfl, rfl, mem_relationsAtZIndex relations, mem_waysAtZIndex ways,
    ?_, ?_⟩
  · intro z r h0 hz hmem
    have := ((mem_relationsAtZIndex relations z r).mp hmem).2
    omega
  · intro z w h0 hz hmem
    have := ((mem_waysAtZIndex ways z w).mp hmem).2
    omega

/-- Concrete untagged relation, resolving to the catch-all style. -/
def demoRelation : Relation := ⟨"r1", [], []⟩

theorem render_zindex_pass_witness :
    demoRelation ∉ relationsAtZIndex [demoRelation] 1 ∧
    demoWay ∉ waysAtZIndex [demoWay] 1 :=
  ⟨(render_zindex_pass [demoRelation] [demoWay]).2.2.2.2.2.2.1 1 demoRelation rfl
      (by omega),
   (render_zindex_pass [demoRelation] [demoWay]).2.2.2.2.2.2.2 1 demoWay rfl
      (by omega)⟩

/-- The isValidNumber helper of input-validation.js: typeof number and
isFinite.  All inputs here are already numbers (results of parseFloat), so
only finiteness matters. -/
def isValidNumber (v : JSNum) : Bool := v.isFinite

/-- The isInRange helper of input-validation.js:
value >= min && value <= max. -/
def isInRange (v lo hi : JSNum) : Bool := JSNum.ge v lo && JSNum.le v hi

/-- The ordered validation rule list of getValidationError
(input-validation.js): evaluated check, message, optional field.  The
checks are pure, so eager evaluation coincides with the source's lazy
check() calls. -/
def validationRules (minLon minLat maxLon maxLat : JSNum) :
    List (Bool × String × Option String) :=
  [([minLon, minLat, maxLon, maxLat].all isValidNumber,
    "All coordinate values must be valid numbers", none),
   (JSNum.lt minLon maxLon,
    "Minimum Longitude must be less than maximum Longitude", some "minLon"),
   (JSNum.lt minLat maxLat,
    "Minimum Latitude must be less than maximum Latitude", some "minLat"),
   (JSNum.le ((maxLon - minLon) * (maxLat - minLat)) (JSNum.fin (25 / 100)),
    "Bounding box area cannot exceed 0.25 square degrees", none),
   (isInRange minLon (JSNum.fin (-180)) (JSNum.fin 180) &&
      isInRange maxLon (JSNum.fin (-180)) (JSNum.fin 180),
    "Longitude values must be between -180 and 180", some "minLon"),
   (isInRange minLat (JSNum.fin (-90)) (JSNum.fin 90) &&
      isInRange maxLat (JSNum.fin (-90)) (JSNum.fin 90),
    "Latitude values must be between -90 and 90", some "minLat")]

/-- The getValidationError scan of input-validation.js: the first rule
whose check fails yields its message and field; otherwise the message is
null. -/
def getValidationError (minLon minLat maxLon maxLat : JSNum) :
    Option String × Option String :=
  match (validationRules minLon minLat maxLon maxLat).find? (fun r => !r.1) with
  | some r => (some r.2.1, r.2.2)
  | none => (none, none)

/-- The boolean outcome of validateInputs (input-validation.js): true
exactly when the message is null.  (The message constants are all
non-empty, so JavaScript truthiness agrees with non-nullness; the DOM
feedback is not modelled.) -/
def validateInputs (minLon minLat maxLon maxLat : JSNum) : Bool :=
  ((getValidationError minLon minLat maxLon maxLat).1).isNone

/-- Observable outcome of the form-submission handler
(form-submission.js): blocked because data is already loaded, rejected by
validation, or proceeding to build the request URL and fetch.  The fetched
outcome carries the bounding box from which the URL is interpolated. -/
inductive SubmitOutcome where
  | blockedExistingData
  | rejectedInvalid
  | fetched (minLon minLat maxLon maxLat : JSNum)
deriving Repr, DecidableEq

/-- Control flow of handleFormSubmit (form-submission.js): return early if
any cached collection is non-empty, then return if validateInputs fails —
before buildUrl and fetch — and otherwise proceed to the network request. -/
def handleFormSubmit (cachedNodesCount cachedWaysCount cachedRelationsCount : Nat)
    (minLon minLat maxLon maxLat : JSNum) : SubmitOutcome :=
  if 0 < cachedNodesCount ∨ 0 < cachedWaysCount ∨ 0 < cachedRelationsCount then
    .blockedExistingData
  else if !(validateInputs minLon minLat maxLon maxLat) then
    .rejectedInvalid
  else
    .fetched minLon minLat maxLon maxLat

theorem validateInputs_eq_true_iff (minLon minLat maxLon maxLat : JSNum) :
    validateInputs minLon minLat maxLon maxLat = true ↔
      ∀ r ∈ validationRules minLon minLat maxLon maxLat, r.1 = true := by
  rw [validateInputs, getValidationError]
  cases hf : (validationRules minLon minLat maxLon maxLat).find? (fun r => !r.1) with
  | some r =>
    have hr1 : (!r.1) = true := @List.find?_some _ (fun r => !r.1) r _ hf
    have hmem : r ∈ validationRules minLon minLat maxLon maxLat :=
      @List.mem_of_find?_eq_some _ (fun r => !r.1) r _ hf
    simp only [Option.isNone_some, Bool.false_eq_true, false_iff, not_forall]
    refine ⟨r, hmem, ?_⟩
    intro hcontra
    rw [hcontra] at hr1
    cases hr1
  | none =>
    simp only [Option.isNone_none, true_iff]
    intro x hx
    have := List.find?_eq_none.mp hf x hx
    simpa using this

/-- C7: a bounding-box request with minLon >= maxLon, or minLat >= maxLat,
or area exceeding 0.25 square degrees, or a longitude outside [-180, 180],
or a latitude outside [-90, 90], or any non-finite value, fails
validateInputs, and the form-submission handler returns without reaching
the URL construction or the network fetch. -/
theorem invalid_bbox_rejected_before_fetch
    (minLon minLat maxLon maxLat : JSNum) (cn cw cr : Nat)
    (h : JSNum.ge minLon maxLon = true ∨ JSNum.ge minLat maxLat = true ∨
      JSNum.gt ((maxLon - minLon) * (maxLat - minLat)) (JSNum.fin (25 / 100)) = true ∨
      JSNum.isFinite minLon = false ∨ JSNum.isFinite minLat = false ∨
      JSNum.isFinite maxLon = false ∨ JSNum.isFinite maxLat = false ∨
      JSNum.lt minLon (JSNum.fin (-180)) = true ∨ JSNum.gt minLon (JSNum.fin 180) = true ∨
      JSNum.lt maxLon (JSNum.fin (-180)) = true ∨ JSNum.gt maxLon (JSNum.fin 180) = true ∨
      JSNum.lt minLat (JSNum.fin (-90)) = true ∨ JSNum.gt minLat (JSNum.fin 90) = true ∨
      JSNum.lt maxLat (JSNum.fin (-90)) = true ∨ JSNum.gt maxLat (JSNum.fin 90) = true) :
    validateInputs minLon minLat maxLon maxLat = false ∧
    ∀ a b c d, handleFormSubmit cn cw cr minLon minLat maxLon maxLat ≠
      SubmitOutcome.fetched a b c d := by
  have hfalse : validateInputs minLon minLat maxLon maxLat = false := by
    cases hv : validateInputs minLon minLat maxLon maxLat with
    | false => rfl
    | true =>
      exfalso
      have hall := (validateInputs_eq_true_iff minLon minLat maxLon maxLat).mp hv
      have hc1 : ([minLon, minLat, maxLon, maxLat].all isValidNumber) = true :=
        hall ([minLon, minLat, maxLon, maxLat].all isValidNumber,
          "All coordinate values must be valid numbers", none)
          (by simp [validationRules])
      have hc2 : JSNum.lt minLon maxLon = true :=
        hall (JSNum.lt minLon maxLon,
          "Minimum Longitude must be less than maximum Longitude", some "minLon")
          (by simp [validationRules])
      have hc3 : JSNum.lt minLat maxLat = true :=
        hall (JSNum.lt minLat maxLat,
          "Minimum Latitude must be less than maximum Latitude", some "minLat")
          (by simp [validationRules])
      have hc4 : JSNum.le ((maxLon - minLon) * (maxLat - minLat))
          (JSNum.fin (25 / 100)) = true :=
        hall (JSNum.le ((maxLon - minLon) * (maxLat - minLat)) (JSNum.fin (25 / 100)),
          "Bounding box area cannot exceed 0.25 square degrees", none)
          (by simp [validationRules])
      have hc5 : (isInRange minLon (JSNum.fin (-180)) (JSNum.fin 180) &&
          isInRange maxLon (JSNum.fin (-180)) (JSNum.fin 180)) = true :=
        hall (isInRange minLon (JSNum.fin (-180)) (JSNum.fin 180) &&
            isInRange maxLon (JSNum.fin (-180)) (JSNum.fin 180),
          "Longitude values must be between -180 and 180", some "minLon")
          (by simp [validationRules])
      have hc6 : (isInRange minLat (JSNum.fin (-90)) (JSNum.fin 90) &&
          isInRange maxLat (JSNum.fin (-90)) (JSNum.fin 90)) = true :=
        hall (isInRange minLat (JSNum.fin (-90)) (JSNum.fin 90) &&
            isInRange maxLat (JSNum.fin (-90)) (JSNum.fin 90),
          "Latitude values must be between -90 and 90", some "minLat")
          (by simp [validationRules])
      simp only [List.all_cons, List.all_nil, Bool.and_eq_true, isValidNumber] at hc1
      simp only [Bool.and_eq_true, isInRange] at hc5 hc6
      rcases h with h | h | h | h | h | h | h | h | h | h | h | h | h | h | h
      · rw [JSNum.lt_false_of_ge h] at hc2
        cases hc2
      · rw [JSNum.lt_false_of_ge h] at hc3
        cases hc3
      · rw [JSNum.le_false_of_gt h] at hc4
        cases hc4
      · rw [h] at hc1
        simp at hc1
      · rw [h] at hc1
        simp at hc1
      · rw [h] at hc1
        simp at hc1
      · rw [h] at hc1
        simp at hc1
      · rw [JSNum.ge_false_of_lt h] at hc5
        simp at hc5
      · rw [JSNum.le_false_of_gt h] at hc5
        simp at hc5
      · rw [JSNum.ge_false_of_lt h] at hc5
        simp at hc5
      · rw [JSNum.le_false_of_gt h] at hc5
        simp at hc5
      · rw [JSNum.ge_false_of_lt h] at hc6
        simp at hc6
      · rw [JSNum.le_false_of_gt h] at hc6
        simp at hc6
      · rw [JSNum.ge_false_of_lt h] at hc6
        simp at hc6
      · rw [JSNum.le_false_of_gt h] at hc6
        simp at hc6
  refine ⟨hfalse, ?_⟩
  intro a b c d
  rw [handleFormSubmit]
  by_cases hcache : 0 < cn ∨ 0 < cw ∨ 0 < cr
  · rw [if_pos hcache]
    intro hcontra
    cases hcontra
  · rw [if_neg hcache, hfalse]
    intro hcontra
    cases hcontra

theorem invalid_bbox_witness :
    validateInputs (JSNum.fin 10) (JSNum.fin 0) (JSNum.fin 5) (JSNum.fin 1) = false ∧
    ∀ a b c d, handleFormSubmit 0 0 0 (JSNum.fin 10) (JSNum.fin 0) (JSNum.fin 5)
      (JSNum.fin 1) ≠ SubmitOutcome.fetched a b c d :=
  invalid_bbox_rejected_before_fetch (JSNum.fin 10) (JSNum.fin 0) (JSNum.fin 5)
    (JSNum.fin 1) 0 0 0
    (Or.inl (by norm_num [JSNum.ge, JSNum.le]))

/-- The mutable fields of MapRenderer that the clear workflow touches
(render-main.js constructor, clear-data.js). -/
structure RendererState where
  offsetX : ℚ
  offsetY : ℚ
  zoomLevel : ℚ
  currentOffsetX : ℚ
  currentOffsetY : ℚ
  cachedNodes : List OsmNode
  cachedWays : List Way
  cachedRelations : List Relation
  cacheReady : Bool
  needsRender : Bool
deriving Repr, DecidableEq

/-- Application state observed by the clear workflow: the three durable
IndexedDB collections, the renderer, the three UI count indicators, and
the persisted zoom/pan settings in localStorage. -/
structure AppState where
  dbNodes : List OsmNode
  dbWays : List Way
  dbRelations : List Relation
  renderer : RendererState
  uiNodesCount : Nat
  uiWaysCount : Nat
  uiRelationsCount : Nat
  storeOffsetX : Option String
  storeOffsetY : Option String
  storeZoomLevel : Option String
deriving Repr, DecidableEq

/-- Outcome of the readwrite clear transaction on the three object stores,
supplied by the environment: completion or an error event.  (A missing
database instance also surfaces as a thrown error before any store is
touched.) -/
inductive TxnResult where
  | ok
  | err (msg : String)
deriving Repr, DecidableEq

/-- The user-visible report logged at the end of the clear workflow. -/
inductive ClearReport where
  | success
  | failure (msg : String)
deriving Repr, DecidableEq

/-- resetRendererState (clear-data.js lines 30-36): default pan and zoom. -/
def resetRendererState (r : RendererState) : RendererState :=
  { r with offsetX := 0, offsetY := 0, zoomLevel := 1,
           currentOffsetX := 0, currentOffsetY := 0 }

/-- clearRendererCache (clear-data.js lines 47-58): empty the cached
collections and reset the state flags.  (The canvas clearRect call has no
modelled state.) -/
def clearRendererCache (r : RendererState) : RendererState :=
  { r with cachedWays := [], cachedNodes := [], cachedRelations := [],
           cacheReady := false, needsRender := false }

/-- clearDatabase (clear-data.js lines 155-167): one readwrite transaction
clearing all three stores, awaited to completion.  A failed IndexedDB
transaction aborts and rolls back, leaving the stores unchanged, and the
await rejects. -/
def clearDatabase (txn : TxnResult) (s : AppState) : Except String AppState :=
  match txn with
  | .ok => .ok { s with dbNodes := [], dbWays := [], dbRelations := [] }
  | .err m => .error m

/-- The clear-data click handler (clear-data.js lines 105-121): await
clearDatabase first; only on success reset the renderer pan/zoom, clear
the renderer cache, zero the UI counters, remove the persisted settings
and report success; on failure report the error with nothing else
touched. -/
def clearClickHandler (txn : TxnResult) (s : AppState) : AppState × ClearReport :=
  match clearDatabase txn s with
  | .ok s2 =>
      ({ s2 with
          renderer := clearRendererCache (resetRendererState s2.renderer),
          uiNodesCount := 0, uiWaysCount := 0, uiRelationsCount := 0,
          storeOffsetX := none, storeOffsetY := none, storeZoomLevel := none },
       .success)
  | .error m => (s, .failure m)

/-- C8: after a successful clear the three durable collections are empty,
the renderer pan/zoom is back to defaults, the three in-memory cached
collections are empty, the UI counters are zero and success is reported;
when the durable clear fails, the error is reported and the cached
collections and UI counters (indeed the whole observable state) are left
untouched. -/
theorem clear_workflow_consistency (s : AppState) :
    ((clearClickHandler .ok s).1.dbNodes = [] ∧
     (clearClickHandler .ok s).1.dbWays = [] ∧
     (clearClickHandler .ok s).1.dbRelations = [] ∧
     (clearClickHandler .ok s).1.renderer.cachedNodes = [] ∧
     (clearClickHandler .ok s).1.renderer.cachedWays = [] ∧
     (clearClickHandler .ok s).1.renderer.cachedRelations = [] ∧
     (clearClickHandler .ok s).1.renderer.offsetX = 0 ∧
     (clearClickHandler .ok s).1.renderer.offsetY = 0 ∧
     (clearClickHandler .ok s).1.renderer.zoomLevel = 1 ∧
     (clearClickHandler .ok s).1.renderer.currentOffsetX = 0 ∧
     (clearClickHandler .ok s).1.renderer.currentOffsetY = 0 ∧
     (clearClickHandler .ok s).1.uiNodesCount = 0 ∧
     (clearClickHandler .ok s).1.uiWaysCount = 0 ∧
     (clearClickHandler .ok s).1.uiRelationsCount = 0 ∧
     (clearClickHandler .ok s).2 = ClearReport.success) ∧
    (∀ m, clearClickHandler (.err m) s = (s, ClearReport.failure m)) := by
  refine ⟨⟨rfl, rfl, rfl, rfl, rfl, rfl, rfl, rfl, rfl, rfl, rfl, rfl, rfl, rfl, rfl⟩, ?_⟩
  intro m
  rfl

/-- Zoom bounds of zoom-buttons.js. -/
def MAX_ZOOM_LEVEL : ℚ := 6

/-- Lower zoom bound of zoom-buttons.js (0.4). -/
def MIN_ZOOM_LEVEL : ℚ := 2 / 5

/-- Zoom-in click handler update (zoom-buttons.js lines 14-17):
Math.min(zoomLevel + zoomStep, MAX_ZOOM_LEVEL). -/
def zoomInLevel (zoomLevel zoomStep : ℚ) : ℚ :=
  min (zoomLevel + zoomStep) MAX_ZOOM_LEVEL

/-- Zoom-out click handler update (zoom-buttons.js lines 19-22):
Math.max(zoomLevel - zoomStep, MIN_ZOOM_LEVEL). -/
def zoomOutLevel (zoomLevel zoomStep : ℚ) : ℚ :=
  max (zoomLevel - zoomStep) MIN_ZOOM_LEVEL

/-- C10: starting from any zoom level in [0.4, 6], a zoom-in click sets the
level to min(zoomLevel + zoomStep, 6) and a zoom-out click to
max(zoomLevel - zoomStep, 0.4), and both results stay within [0.4, 6]
for any non-negative step (the renderer uses zoomStep = 0.5), so repeated
clicks saturate at the bounds. -/
theorem zoom_buttons_clamp (z step : ℚ)
    (h1 : 2 / 5 ≤ z) (h2 : z ≤ 6) (h3 : 0 ≤ step) :
    zoomInLevel z step = min (z + step) 6 ∧
    zoomOutLevel z step = max (z - step) (2 / 5) ∧
    2 / 5 ≤ zoomInLevel z step ∧ zoomInLevel z step ≤ 6 ∧
    2 / 5 ≤ zoomOutLevel z step ∧ zoomOutLevel z step ≤ 6 := by
  refine ⟨rfl, rfl, ?_, ?_, ?_, ?_⟩
  · rw [zoomInLevel, MAX_ZOOM_LEVEL]
    exact le_min (by linarith) (by norm_num)
  · rw [zoomInLevel, MAX_ZOOM_LEVEL]
    exact min_le_right _ _
  · rw [zoomOutLevel, MIN_ZOOM_LEVEL]
    exact le_max_right _ _
  · rw [zoomOutLevel, MIN_ZOOM_LEVEL]
    exact max_le (by linarith) (by norm_num)

theorem zoom_buttons_witness :
    zoomInLevel 6 (1 / 2) = min (6 + 1 / 2) 6 ∧
    zoomOutLevel 6 (1 / 2) = max (6 - 1 / 2) (2 / 5) ∧
    2 / 5 ≤ zoomInLevel 6 (1 / 2) ∧ zoomInLevel 6 (1 / 2) ≤ 6 ∧
    2 / 5 ≤ zoomOutLevel 6 (1 / 2) ∧ zoomOutLevel 6 (1 / 2) ≤ 6 :=
  zoom_buttons_clamp 6 (1 / 2) (by norm_num) (by norm_num) (by norm_num)

end OfflineMap
